import Mathlib

/-!
Verification development for the link-checker scripts
(`comprehensive_link_checker.py`, `link_test_script.py`, `simple_link_test.py`).

The Python scripts scan a page text with regular expressions, probe external
links, and aggregate a summary.  We embed the relevant routines shallowly:

* Each concrete regular expression used by the code is embedded as a
  deterministic character-level matcher.  For every pattern used here the
  greedy matching with backtracking collapses to maximal-munch scanning,
  because each greedy sub-pattern is followed by a literal whose characters
  are excluded from the sub-pattern's character class (so shrinking a greedy
  run can never enable the continuation).  `re.finditer` semantics is
  embedded as a left-to-right scan: on a match, scanning resumes at the end
  of the match; on a failure, at the next character.
* Network fetches are external effects; they are embedded as an explicit
  `FetchOutcome` oracle passed to the probing functions.
* Python `float` arithmetic on success rates is idealised as exact rational
  arithmetic (`ℚ`); integers are `Nat`/`Int`.
-/

/-- Double-quote character (written by code point to keep source scanners happy). -/
def dq : Char := Char.ofNat 34

/-- Single-quote character. -/
def sqc : Char := Char.ofNat 39

/-- The regex character class `["\']` used as quote delimiter in all patterns. -/
def isQuote (c : Char) : Bool := c == dq || c == sqc

/-- The regex character class `[a-zA-Z_$]` (ASCII, as in Python `re`). -/
def isIdentStart (c : Char) : Bool := c.isAlpha || c == '_' || c == '$'

/-- The regex character class `[a-zA-Z0-9_$]`. -/
def isIdentChar (c : Char) : Bool := c.isAlphanum || c == '_' || c == '$'

/-- The regex class `\s` restricted to its ASCII members, which is what the
scanned HTML/JS texts contain. -/
def isPySpace (c : Char) : Bool :=
  c == ' ' || c == '\t' || c == '\n' || c == '\r' || c == '\x0b' || c == '\x0c'

/-- Match a literal character sequence at the front of the input, returning
the remainder on success (embedding of a literal regex fragment). -/
def stripLit : List Char → List Char → Option (List Char)
  | [], cs => some cs
  | _ :: _, [] => none
  | p :: ps, c :: cs => if c == p then stripLit ps cs else none

/-- Case-insensitive variant of `stripLit`, for the one pattern compiled with
`re.IGNORECASE` (the image-source pattern). -/
def stripLitCI : List Char → List Char → Option (List Char)
  | [], cs => some cs
  | _ :: _, [] => none
  | p :: ps, c :: cs => if c.toLower == p.toLower then stripLitCI ps cs else none

/-- Embedding of the regex fragment `["\']([^"\']+)["\']`: an opening quote,
a nonempty run of non-quote characters, a closing quote (the two quotes need
not agree, exactly as in the Python patterns).  Returns the captured run and
the remainder after the closing quote. -/
def readQuoted (cs : List Char) : Option (List Char × List Char) :=
  match cs with
  | [] => none
  | q :: rest =>
    if isQuote q then
      match rest.dropWhile (fun c => !isQuote c) with
      | [] => none
      | _ :: rest2 =>
        if (rest.takeWhile (fun c => !isQuote c)).isEmpty then none
        else some (rest.takeWhile (fun c => !isQuote c), rest2)
    else none

/-- Tail of the external-link pattern after the scheme literal:
`([^"\']+)["\']`, where the captured URL is rebuilt including the scheme
(the code takes `match.group(0)[6:-1]`, i.e. scheme plus remainder). -/
def extValue (sch : List Char) (r3 : List Char) : Option (String × List Char) :=
  match r3.dropWhile (fun c => !isQuote c) with
  | [] => none
  | _ :: r4 =>
    if (r3.takeWhile (fun c => !isQuote c)).isEmpty then none
    else some (String.mk (sch ++ r3.takeWhile (fun c => !isQuote c)), r4)

/-- Embedding of `href=["\']https?://([^"\']+)["\']` attempted at the current
position (pattern of `extract_links_from_html` for external links). -/
def matchExternalAt (cs : List Char) : Option (String × List Char) :=
  match stripLit "href=".data cs with
  | none => none
  | some r1 =>
    match r1 with
    | [] => none
    | q :: r2 =>
      if isQuote q then
        match stripLit "https://".data r2 with
        | some r3 => extValue "https://".data r3
        | none =>
          match stripLit "http://".data r2 with
          | some r3 => extValue "http://".data r3
          | none => none
      else none

/-- Tail of the internal-link pattern after the lookahead: `([^"\']+)["\']`,
capturing the bare value. -/
def intValue (r2 : List Char) : Option (String × List Char) :=
  match r2.dropWhile (fun c => !isQuote c) with
  | [] => none
  | _ :: r4 =>
    if (r2.takeWhile (fun c => !isQuote c)).isEmpty then none
    else some (String.mk (r2.takeWhile (fun c => !isQuote c)), r4)

/-- Embedding of `href=["\'](?!https?://)([^"\']+)["\']` attempted at the
current position (pattern of `extract_links_from_html` for internal links). -/
def matchInternalAt (cs : List Char) : Option (String × List Char) :=
  match stripLit "href=".data cs with
  | none => none
  | some r1 =>
    match r1 with
    | [] => none
    | q :: r2 =>
      if isQuote q then
        if (stripLit "https://".data r2).isSome || (stripLit "http://".data r2).isSome then
          none
        else intValue r2
      else none

/-- Embedding of `onclick=["\']([^"\']+)["\']` attempted at the current
position. -/
def matchOnclickAt (cs : List Char) : Option (String × List Char) :=
  match stripLit "onclick=".data cs with
  | none => none
  | some r1 =>
    match readQuoted r1 with
    | none => none
    | some (v, rest) => some (String.mk v, rest)

/-- One backtracking attempt of `lit ++ ["\'](value)["\']` at offset `k` into
`cs`, with an extra predicate `ok` on the captured value (used for the `.css`
and image-extension suffix requirements). -/
def attemptAttrAt (lit : List Char) (ok : List Char → Bool) (cs : List Char) (k : Nat) :
    Option (String × List Char) :=
  match stripLit lit (cs.drop k) with
  | none => none
  | some r =>
    match readQuoted r with
    | none => none
    | some (v, rest) => if ok v then some (String.mk v, rest) else none

/-- Embedding of a greedy `[^>]*` followed by `lit ++ quoted value`: the
regex engine tries the longest run of non-`>` characters first and backtracks,
so the successful offset is the largest `k` (bounded by the non-`>` run) at
which the continuation matches. -/
def searchAttrDesc (lit : List Char) (ok : List Char → Bool) (cs : List Char) :
    Nat → Option (String × List Char)
  | 0 => attemptAttrAt lit ok cs 0
  | k + 1 =>
    match attemptAttrAt lit ok cs (k + 1) with
    | some res => some res
    | none => searchAttrDesc lit ok cs k

/-- Embedding of `<form[^>]*action=["\']([^"\']+)["\']` at the current
position. -/
def matchFormAt (cs : List Char) : Option (String × List Char) :=
  match stripLit "<form".data cs with
  | none => none
  | some r1 =>
    searchAttrDesc "action=".data (fun _ => true) r1
      ((r1.takeWhile (fun c => !(c == '>'))).length)

/-- Embedding of `<script[^>]*src=["\']([^"\']+)["\']` at the current
position. -/
def matchScriptAt (cs : List Char) : Option (String × List Char) :=
  match stripLit "<script".data cs with
  | none => none
  | some r1 =>
    searchAttrDesc "src=".data (fun _ => true) r1
      ((r1.takeWhile (fun c => !(c == '>'))).length)

/-- Value condition for `([^"\']+\.css)`: since the `.css` literal must sit
immediately before the closing quote and its characters are non-quote, the
captured value is the full non-quote run, required to end in `.css` with at
least one character before it. -/
def cssValueOk (v : List Char) : Bool :=
  Nat.blt 4 v.length && (stripLit ".css".data (v.drop (v.length - 4))).isSome

/-- Embedding of `<link[^>]*href=["\']([^"\']+\.css)["\']` at the current
position. -/
def matchCssAt (cs : List Char) : Option (String × List Char) :=
  match stripLit "<link".data cs with
  | none => none
  | some r1 =>
    searchAttrDesc "href=".data cssValueOk r1
      ((r1.takeWhile (fun c => !(c == '>'))).length)

/-- The image-extension alternatives of the image-source pattern, with the
preceding literal dot. -/
def imgSuffixes : List (List Char) :=
  [".jpg".data, ".jpeg".data, ".png".data, ".gif".data, ".svg".data, ".webp".data]

/-- Value condition for `([^"\']+\.(jpg|jpeg|png|gif|svg|webp))` under
`re.IGNORECASE`: the value must end (case-insensitively) in one of the
extensions, with at least one character before the dot. -/
def imgOk (v : List Char) : Bool :=
  imgSuffixes.any (fun e =>
    Nat.blt e.length v.length && (stripLitCI e (v.drop (v.length - e.length))).isSome)

/-- Embedding of `src=["\']([^"\']+\.(jpg|jpeg|png|gif|svg|webp))["\']`
(compiled with `re.IGNORECASE`) at the current position. -/
def matchImgAt (cs : List Char) : Option (String × List Char) :=
  match stripLitCI "src=".data cs with
  | none => none
  | some r1 =>
    match readQuoted r1 with
    | none => none
    | some (v, rest) => if imgOk v then some (String.mk v, rest) else none

/-- Fuelled `re.finditer` scan: attempt the matcher at each position; on a
match record the capture and resume after the match, otherwise advance one
character.  Every step consumes at least one character, so fuel equal to the
input length is sufficient. -/
def scanAux (m : List Char → Option (String × List Char)) : Nat → List Char → List String
  | 0, _ => []
  | _ + 1, [] => []
  | fuel + 1, c :: rest =>
    match m (c :: rest) with
    | some (v, after) => v :: scanAux m fuel after
    | none => scanAux m fuel rest

/-- All captures of a matcher over a text, in order of appearance. -/
def scanMatches (m : List Char → Option (String × List Char)) (cs : List Char) : List String :=
  scanAux m cs.length cs

/-- Embedding of Python `str.startswith` on the strings handled here. -/
def strStarts (s p : String) : Bool := (stripLit p.data s.data).isSome

/-- Result record of `extract_links_from_html`: one ordered category per
regex pass, duplicates preserved. -/
structure ExtractionResult where
  external_links : List String
  internal_links : List String
  onclick_handlers : List String
  form_actions : List String
  image_sources : List String
  script_sources : List String
  css_links : List String
deriving DecidableEq

/-- Embedding of `ComprehensiveLinkChecker.extract_links_from_html`: seven
independent regex passes over the same text; internal links additionally
drop empty, `mailto:` and `tel:` values. -/
def extract_links_from_html (html : String) : ExtractionResult :=
  ⟨scanMatches matchExternalAt html.data,
   (scanMatches matchInternalAt html.data).filter
     (fun l => !(l == "") && !(strStarts l "mailto:") && !(strStarts l "tel:")),
   scanMatches matchOnclickAt html.data,
   scanMatches matchFormAt html.data,
   scanMatches matchImgAt html.data,
   scanMatches matchScriptAt html.data,
   scanMatches matchCssAt html.data⟩

/-- The onclick-handler pass of `analyze_javascript_functionality`
(`re.findall` of the onclick pattern). -/
def scanOnclickHandlers (html : String) : List String :=
  scanMatches matchOnclickAt html.data

/-- Embedding of `function\s+([a-zA-Z_$][a-zA-Z0-9_$]*)\s*\(` attempted at
the current position (function-definition pattern). -/
def matchFuncDefAt (cs : List Char) : Option (String × List Char) :=
  match stripLit "function".data cs with
  | none => none
  | some r1 =>
    if (r1.takeWhile isPySpace).isEmpty then none
    else
      match r1.dropWhile isPySpace with
      | [] => none
      | c :: r3 =>
        if isIdentStart c then
          match (r3.dropWhile isIdentChar).dropWhile isPySpace with
          | [] => none
          | p :: r6 =>
            if p == '(' then some (String.mk (c :: r3.takeWhile isIdentChar), r6) else none
        else none

/-- All function-definition names found in a text (`re.findall`). -/
def scanFuncDefs (html : String) : List String :=
  scanMatches matchFuncDefAt html.data

/-- Embedding of `re.match(r'([a-zA-Z_$][a-zA-Z0-9_$]*)\s*\(', handler)`:
anchored at the start, leading identifier, optional whitespace, then an
opening parenthesis; returns the identifier. -/
def leadingCallName (s : String) : Option String :=
  match s.data with
  | [] => none
  | c :: rest =>
    if isIdentStart c then
      match (rest.dropWhile isIdentChar).dropWhile isPySpace with
      | [] => none
      | p :: _ =>
        if p == '(' then some (String.mk (c :: rest.takeWhile isIdentChar)) else none
    else none

/-- The set of function names called from onclick handlers
(`function_names` in `analyze_javascript_functionality`; Python builds a
`set`, embedded as a `Finset`). -/
def calledFunctions (html : String) : Finset String :=
  ((scanOnclickHandlers html).filterMap leadingCallName).toFinset

/-- The set of defined function names (`defined_functions`). -/
def definedFunctions (html : String) : Finset String :=
  (scanFuncDefs html).toFinset

/-- The set difference computed as `function_names - defined_functions`. -/
def missingFunctions (html : String) : Finset String :=
  calledFunctions html \ definedFunctions html

/-- Result record of `analyze_javascript_functionality`. -/
structure JsAnalysis where
  onclick_handlers : Nat
  function_names : Finset String
  defined_functions : Finset String
  missing_functions : Finset String
deriving DecidableEq

/-- Embedding of `ComprehensiveLinkChecker.analyze_javascript_functionality`
(the returned record; printing is an external effect). -/
def analyze_javascript_functionality (html : String) : JsAnalysis :=
  ⟨(scanOnclickHandlers html).length,
   calledFunctions html,
   definedFunctions html,
   missingFunctions html⟩

/-- Outcome of the external network fetch performed inside `test_url`: the
four cases the surrounding `try`/`except` distinguishes — a response, an
`urllib.error.HTTPError`, an `urllib.error.URLError`, and any other raised
exception. -/
inductive FetchOutcome where
  | success (code : Nat) (contentType : String)
  | httpError (code : Nat) (reason : String)
  | urlError (reason : String)
  | otherExc (msg : String)

/-- The `status` tag written into the result dictionary of `test_url`. -/
inductive ProbeStatus where
  | success
  | http_error
  | url_error
  | error
deriving DecidableEq

/-- The result dictionary of `test_url`; keys absent in a branch are `none`. -/
structure ProbeResult where
  status : ProbeStatus
  status_code : Option Nat
  content_type : Option String
  error : Option String
  accessible : Bool
deriving DecidableEq

/-- Embedding of `ComprehensiveLinkChecker.test_url`: total classification of
every fetch outcome into one tagged result record. -/
def test_url (o : FetchOutcome) : ProbeResult :=
  match o with
  | .success code ct => ⟨.success, some code, some ct, none, true⟩
  | .httpError code reason => ⟨.http_error, some code, none, some reason, false⟩
  | .urlError reason => ⟨.url_error, none, none, some reason, false⟩
  | .otherExc msg => ⟨.error, none, none, some msg, false⟩

/-- One entry of `self.results["link_checks"]` as appended by
`test_external_links`. -/
structure LinkCheck where
  source : String
  external_links_tested : Nat
  external_links_total : Nat
  results : List (String × ProbeResult)
deriving DecidableEq

/-- Embedding of `ComprehensiveLinkChecker.test_external_links`: with an
empty link list the function returns before building a record; otherwise it
probes the first 10 links in order (`external_links[:10]`) and records the
tested count, the full total, and one result per probed link.  The network
is passed in as a `fetch` oracle. -/
def test_external_links (fetch : String → FetchOutcome) (source : String)
    (external_links : List String) : Option LinkCheck :=
  if external_links.isEmpty then none
  else
    some ⟨source,
          ((external_links.take 10).map (fun l => (l, test_url (fetch l)))).length,
          external_links.length,
          (external_links.take 10).map (fun l => (l, test_url (fetch l)))⟩

/-- Accessibility flag and stored total-link count of one page source
(`self.results["live_website"]` / `self.results["local_file"]`). -/
structure SourceStatus where
  accessible : Bool
  total_links : Nat

/-- The dictionary written to `self.results["comparison"]`. -/
structure Comparison where
  live_links : Nat
  local_links : Nat
  difference : Int
deriving DecidableEq

/-- Embedding of `ComprehensiveLinkChecker.compare_versions`: nothing is
recorded unless both sources are accessible; the recorded `difference` is
the signed value `live_total - local_total`. -/
def compare_versions (live loc : SourceStatus) : Option Comparison :=
  if live.accessible && loc.accessible then
    some ⟨live.total_links, loc.total_links,
          (live.total_links : Int) - (loc.total_links : Int)⟩
  else none

/-- The aggregate fields written into `self.results["summary"]` by
`generate_summary_report`. -/
structure Summary where
  total_external_links_tested : Nat
  working_external_links : Nat
  broken_external_links : Int
  success_rate : ℚ
deriving DecidableEq

/-- Number of accessible results inside one link-check batch. -/
def countWorking (c : LinkCheck) : Nat :=
  (c.results.filter (fun r => r.2.accessible)).length

/-- Total of the `external_links_tested` fields across batches
(`total_external_tested` in `generate_summary_report`). -/
def totalTested (link_checks : List LinkCheck) : Nat :=
  (link_checks.map (fun c => c.external_links_tested)).sum

/-- Total of accessible results across batches (`working_links`). -/
def totalWorking (link_checks : List LinkCheck) : Nat :=
  (link_checks.map countWorking).sum

/-- Embedding of the statistics part of
`ComprehensiveLinkChecker.generate_summary_report` (file output is an
external effect).  Python subtraction and float division are idealised as
`Int` subtraction and exact `ℚ` division. -/
def generate_summary_report (link_checks : List LinkCheck) : Summary :=
  ⟨totalTested link_checks,
   totalWorking link_checks,
   (totalTested link_checks : Int) - (totalWorking link_checks : Int),
   if 0 < totalTested link_checks then
     ((totalWorking link_checks : ℚ) / (totalTested link_checks : ℚ)) * 100
   else 0⟩

/-- Embedding of the success-rate computation in
`WebsiteTester.generate_report` (`link_test_script.py`). -/
def websiteTesterSuccessRate (tested working : Nat) : ℚ :=
  if 0 < tested then ((working : ℚ) / (tested : ℚ)) * 100 else 0

/-- The qualitative band printed by `create_readable_summary`. -/
inductive LinkQuality where
  | excellent
  | good
  | poor
  | veryPoor
deriving DecidableEq

/-- Embedding of the band selection in
`ComprehensiveLinkChecker.create_readable_summary` (lines 414-421). -/
def create_readable_summary_band (success_rate : ℚ) : LinkQuality :=
  if success_rate ≥ 90 then .excellent
  else if success_rate ≥ 75 then .good
  else if success_rate ≥ 50 then .poor
  else .veryPoor

/-- The crafted page text of the extraction claim. -/
def ex4 : String :=
  "<a href=\"https://a.com/x\">A</a> <a href=\"/relative\">B</a> <a href=\"mailto:a@b.com\">C</a> <a href=\"tel:123\">D</a>"

/-- The crafted page text of the JavaScript-analysis claim: an onclick
handler calling `foo` and an inline definition of `foo` (braces written as
code points). -/
def ex7 : String :=
  "<button onclick=\"foo(1,2)\">go</button><script>function foo(a,b) \x7b \x7d</script>"

/-- Shape property named by the missing-function claim: the handler string
begins, at position 0, with an identifier `[a-zA-Z_$][a-zA-Z0-9_$]*`
followed by optional whitespace and an opening parenthesis. -/
def BeginsWithCall (s : String) : Prop :=
  ∃ (c : Char) (idRest ws rest : List Char),
    s.data = c :: (idRest ++ (ws ++ ('(' :: rest))) ∧
    isIdentStart c = true ∧
    (∀ x ∈ idRest, isIdentChar x = true) ∧
    (∀ x ∈ ws, isPySpace x = true)

theorem stripLit_append (p t : List Char) : stripLit p (p ++ t) = some t := by
  induction p with
  | nil => rfl
  | cons c ps ih => simp [stripLit, ih]

theorem stripLit_some_append (p : List Char) :
    ∀ cs r, stripLit p cs = some r → cs = p ++ r := by
  induction p with
  | nil => intro cs r h; simp [stripLit] at h; simp [h]
  | cons c ps ih =>
    intro cs r h
    cases cs with
    | nil => simp [stripLit] at h
    | cons c' cs' =>
      simp only [stripLit] at h
      split at h
      · next hc =>
        have := ih cs' r h
        have hcc : c' = c := by exact eq_of_beq hc
        simp [hcc, this]
      · exact absurd h (by simp)

theorem stripLit_isSome_mono (p v w : List Char) (hvw : v <+: w)
    (hv : (stripLit p v).isSome = true) : (stripLit p w).isSome = true := by
  obtain ⟨r, hr⟩ := Option.isSome_iff_exists.mp hv
  obtain ⟨t, ht⟩ := hvw
  have hv2 : v = p ++ r := stripLit_some_append p v r hr
  have : w = p ++ (r ++ t) := by rw [← ht, hv2, List.append_assoc]
  rw [this, stripLit_append]
  rfl

theorem scanAux_sound {P : String → Prop} (m : List Char → Option (String × List Char))
    (hm : ∀ cs u after, m cs = some (u, after) → P u) :
    ∀ fuel cs u, u ∈ scanAux m fuel cs → P u := by
  intro fuel
  induction fuel with
  | zero => intro cs u h; simp [scanAux] at h
  | succ f ih =>
    intro cs u h
    cases cs with
    | nil => simp [scanAux] at h
    | cons c rest =>
      simp only [scanAux] at h
      cases heq : m (c :: rest) with
      | none =>
        rw [heq] at h
        exact ih rest u h
      | some pr =>
        rw [heq] at h
        obtain ⟨v, after⟩ := pr
        rcases List.mem_cons.mp h with h1 | h2
        · subst h1; exact hm _ _ _ heq
        · exact ih after u h2

theorem extValue_some (sch r3 : List Char) (u : String) (after : List Char)
    (h : extValue sch r3 = some (u, after)) :
    ∃ v, u = String.mk (sch ++ v) := by
  unfold extValue at h
  split at h
  · exact absurd h (by simp)
  · split at h
    · exact absurd h (by simp)
    · simp only [Option.some.injEq, Prod.mk.injEq] at h
      exact ⟨_, h.1.symm⟩

theorem intValue_some (r2 : List Char) (u : String) (after : List Char)
    (h : intValue r2 = some (u, after)) :
    u = String.mk (r2.takeWhile (fun c => !isQuote c)) := by
  unfold intValue at h
  split at h
  · exact absurd h (by simp)
  · split at h
    · exact absurd h (by simp)
    · simp only [Option.some.injEq, Prod.mk.injEq] at h
      exact h.1.symm

theorem matchExternalAt_starts (cs : List Char) (u : String) (after : List Char)
    (h : matchExternalAt cs = some (u, after)) :
    strStarts u "http://" = true ∨ strStarts u "https://" = true := by
  unfold matchExternalAt at h
  split at h
  · exact absurd h (by simp)
  · split at h
    · exact absurd h (by simp)
    · split at h
      · split at h
        · right
          obtain ⟨v, hv⟩ := extValue_some _ _ _ _ h
          subst hv
          have hstep : (stripLit "https://".data ("https://".data ++ v)).isSome = true := by
            rw [stripLit_append]; rfl
          exact hstep
        · split at h
          · left
            obtain ⟨v, hv⟩ := extValue_some _ _ _ _ h
            subst hv
            have hstep : (stripLit "http://".data ("http://".data ++ v)).isSome = true := by
              rw [stripLit_append]; rfl
            exact hstep
          · exact absurd h (by simp)
      · exact absurd h (by simp)

theorem intValue_no_lit (r2 lit : List Char) (u : String) (after : List Char)
    (h : intValue r2 = some (u, after)) (hr2 : (stripLit lit r2).isSome = false) :
    (stripLit lit u.data).isSome = false := by
  have hu : u = String.mk (r2.takeWhile (fun c => !isQuote c)) := intValue_some r2 u after h
  cases hc : (stripLit lit u.data).isSome with
  | false => rfl
  | true =>
    exfalso
    rw [hu] at hc
    have := stripLit_isSome_mono lit _ r2 (List.takeWhile_prefix _) hc
    rw [hr2] at this
    exact Bool.false_ne_true this

theorem matchInternalAt_no_scheme (cs : List Char) (u : String) (after : List Char)
    (h : matchInternalAt cs = some (u, after)) :
    strStarts u "http://" = false ∧ strStarts u "https://" = false := by
  unfold matchInternalAt at h
  cases hs : stripLit "href=".data cs with
  | none => rw [hs] at h; exact absurd h (by simp)
  | some r1 =>
    rw [hs] at h
    cases r1 with
    | nil => exact absurd h (by simp)
    | cons q r2 =>
      simp only [] at h
      by_cases hq : isQuote q = true
      · rw [if_pos hq] at h
        by_cases hl : ((stripLit "https://".data r2).isSome ||
            (stripLit "http://".data r2).isSome) = true
        · rw [if_pos hl] at h; exact absurd h (by simp)
        · rw [if_neg hl] at h
          have hnot : (stripLit "https://".data r2).isSome = false ∧
              (stripLit "http://".data r2).isSome = false := by
            constructor
            · cases hx : (stripLit "https://".data r2).isSome with
              | false => rfl
              | true => exact absurd (by simp [hx]) hl
            · cases hx : (stripLit "http://".data r2).isSome with
              | false => rfl
              | true => exact absurd (by simp [hx]) hl
          exact ⟨intValue_no_lit r2 _ u after h hnot.2,
                 intValue_no_lit r2 _ u after h hnot.1⟩
      · rw [if_neg hq] at h; exact absurd h (by simp)

theorem leadingCallName_shape (s name : String) (h : leadingCallName s = some name) :
    BeginsWithCall s := by
  unfold leadingCallName at h
  split at h
  · exact absurd h (by simp)
  · rename_i c rest hd
    split at h
    · rename_i hci
      split at h
      · exact absurd h (by simp)
      · rename_i p tail hm
        split at h
        · rename_i hp
          have hpeq : p = '(' := eq_of_beq hp
          refine ⟨c, rest.takeWhile isIdentChar,
                  (rest.dropWhile isIdentChar).takeWhile isPySpace, tail, ?_, hci,
                  fun x hx => List.mem_takeWhile_imp hx,
                  fun x hx => List.mem_takeWhile_imp hx⟩
          have h1 : rest.takeWhile isIdentChar ++ rest.dropWhile isIdentChar = rest :=
            List.takeWhile_append_dropWhile _ _
          have h2 : (rest.dropWhile isIdentChar).takeWhile isPySpace ++
              (rest.dropWhile isIdentChar).dropWhile isPySpace =
              rest.dropWhile isIdentChar :=
            List.takeWhile_append_dropWhile _ _
          have h3 : rest = rest.takeWhile isIdentChar ++
              ((rest.dropWhile isIdentChar).takeWhile isPySpace ++ ('(' :: tail)) := by
            calc rest = rest.takeWhile isIdentChar ++ rest.dropWhile isIdentChar := h1.symm
              _ = rest.takeWhile isIdentChar ++
                  ((rest.dropWhile isIdentChar).takeWhile isPySpace ++
                   (rest.dropWhile isIdentChar).dropWhile isPySpace) := by rw [h2]
              _ = rest.takeWhile isIdentChar ++
                  ((rest.dropWhile isIdentChar).takeWhile isPySpace ++ ('(' :: tail)) := by
                  rw [hm, hpeq]
          rw [hd]
          conv_lhs => rw [h3]
        · exact absurd h (by simp)
    · exact absurd h (by simp)

/-- C1 counterexample: with live total 0 and local total 1, the recorded
difference is the signed value -1, which is negative and differs from the
absolute difference 1. -/
theorem compare_versions_not_absolute_cex :
    compare_versions ⟨true, 0⟩ ⟨true, 1⟩ = some ⟨0, 1, -1⟩ ∧
    ¬((-1 : Int) = |(0 : Int) - (1 : Int)| ∧ 0 ≤ (-1 : Int)) := by
  refine ⟨rfl, ?_⟩
  decide

/-- C1 (amended): when both sources are accessible, the comparison step
records both totals and the signed difference live_total - local_total (so
it equals the absolute difference exactly when the live total is at least
the local total, and is non-negative iff that holds), with no other
semantic diff. -/
theorem compare_versions_signed_difference (live loc : SourceStatus)
    (h1 : live.accessible = true) (h2 : loc.accessible = true) :
    compare_versions live loc =
      some ⟨live.total_links, loc.total_links,
            (live.total_links : Int) - (loc.total_links : Int)⟩ ∧
    (0 ≤ (live.total_links : Int) - (loc.total_links : Int) ↔
      loc.total_links ≤ live.total_links) := by
  constructor
  · unfold compare_versions
    rw [h1, h2]
    rfl
  · rw [sub_nonneg]
    exact Int.ofNat_le

/-- Witness for the amended C1 theorem at live=5, local=3. -/
theorem compare_versions_signed_difference_inst :
    compare_versions ⟨true, 5⟩ ⟨true, 3⟩ =
      some ⟨5, 3, ((5 : Nat) : Int) - ((3 : Nat) : Int)⟩ ∧
    (0 ≤ ((5 : Nat) : Int) - ((3 : Nat) : Int) ↔ 3 ≤ 5) :=
  compare_versions_signed_difference ⟨true, 5⟩ ⟨true, 3⟩ rfl rfl

/-- C2 counterexample: for the empty discovered-link list (M = 0) the
probing step returns before building anything, so no batch record stating
tested = 0 and total = 0 is produced. -/
theorem test_external_links_empty_no_record :
    test_external_links (fun _ => FetchOutcome.urlError "e") "local file" [] = none := rfl

/-- C2 (amended): for every nonempty list of discovered external links of
length M the probing step probes exactly the first min(M,10) links in
extraction order, and the batch record states tested = min(M,10) and the
true total M; for the empty list the step is skipped and no record is
produced. -/
theorem test_external_links_bounded_batch (fetch : String → FetchOutcome)
    (source : String) (links : List String) (h : links ≠ []) :
    test_external_links fetch source links =
      some ⟨source, min links.length 10, links.length,
            (links.take 10).map (fun l => (l, test_url (fetch l)))⟩ := by
  unfold test_external_links
  rw [if_neg (by simpa using h)]
  have hlen : ((links.take 10).map (fun l => (l, test_url (fetch l)))).length =
      min links.length 10 := by
    simp [Nat.min_comm]
  rw [hlen]

/-- Witness for the amended C2 theorem on a two-element list. -/
theorem test_external_links_bounded_batch_inst :
    test_external_links (fun _ => FetchOutcome.success 200 "text/html") "live website"
        ["a", "b"] =
      some ⟨"live website", min (List.length ["a", "b"]) 10, List.length ["a", "b"],
            (List.take 10 ["a", "b"]).map
              (fun l => (l, test_url ((fun _ => FetchOutcome.success 200 "text/html") l)))⟩ :=
  test_external_links_bounded_batch _ _ _ (by decide)

/-- C3: the summary success rate is working/total × 100 exactly, is 0 when
the total is 0 (total function, no division error), and broken equals
total − working; the success-rate rule of `WebsiteTester.generate_report`
is the same. -/
theorem generate_summary_report_rate_exact (link_checks : List LinkCheck)
    (tested working : Nat) :
    (generate_summary_report link_checks).success_rate =
      (if (generate_summary_report link_checks).total_external_links_tested = 0 then 0
       else ((generate_summary_report link_checks).working_external_links : ℚ) /
            ((generate_summary_report link_checks).total_external_links_tested : ℚ) * 100) ∧
    (generate_summary_report link_checks).broken_external_links =
      ((generate_summary_report link_checks).total_external_links_tested : Int) -
      ((generate_summary_report link_checks).working_external_links : Int) ∧
    websiteTesterSuccessRate tested working =
      (if tested = 0 then 0 else (working : ℚ) / (tested : ℚ) * 100) := by
  refine ⟨?_, by rfl, ?_⟩
  · have ht : (generate_summary_report link_checks).total_external_links_tested =
        totalTested link_checks := rfl
    have hw : (generate_summary_report link_checks).working_external_links =
        totalWorking link_checks := rfl
    have hr : (generate_summary_report link_checks).success_rate =
        (if 0 < totalTested link_checks then
          ((totalWorking link_checks : ℚ) / (totalTested link_checks : ℚ)) * 100
         else 0) := rfl
    rw [hr, ht, hw]
    rcases Nat.eq_zero_or_pos (totalTested link_checks) with hz | hp
    · simp [hz]
    · rw [if_pos hp, if_neg (Nat.pos_iff_ne_zero.mp hp)]
  · unfold websiteTesterSuccessRate
    rcases Nat.eq_zero_or_pos tested with hz | hp
    · simp [hz]
    · rw [if_pos hp, if_neg (Nat.pos_iff_ne_zero.mp hp)]

/-- C4: for every page text, each extracted external link starts with
http:// or https:// (captured including the scheme), and each extracted
internal link is nonempty and starts with none of http://, https://,
mailto:, tel:; on the crafted example text the two categories are exactly
["https://a.com/x"] and ["/relative"]. -/
theorem extract_links_classification (html : String) :
    (∀ u ∈ (extract_links_from_html html).external_links,
      strStarts u "http://" = true ∨ strStarts u "https://" = true) ∧
    (∀ l ∈ (extract_links_from_html html).internal_links,
      l ≠ "" ∧ strStarts l "http://" = false ∧ strStarts l "https://" = false ∧
        strStarts l "mailto:" = false ∧ strStarts l "tel:" = false) ∧
    (extract_links_from_html ex4).external_links = ["https://a.com/x"] ∧
    (extract_links_from_html ex4).internal_links = ["/relative"] := by
  refine ⟨?_, ?_, by decide, by decide⟩
  · intro u hu
    exact scanAux_sound matchExternalAt matchExternalAt_starts _ _ u hu
  · intro l hl
    have hl2 := List.mem_filter.mp hl
    have hns := scanAux_sound matchInternalAt matchInternalAt_no_scheme _ _ l hl2.1
    have hpred := hl2.2
    simp only [Bool.and_eq_true, Bool.not_eq_true'] at hpred
    exact ⟨ne_of_beq_false hpred.1.1, hns.1, hns.2, hpred.1.2, hpred.2⟩

/-- Witness for the C4 theorem: the crafted example's external link is
classified as scheme-bearing. -/
theorem extract_links_classification_inst :
    strStarts "https://a.com/x" "http://" = true ∨
    strStarts "https://a.com/x" "https://" = true :=
  (extract_links_classification ex4).1 "https://a.com/x" (by decide)

/-- C5: a fetch that raises a server-reported HTTP error is classified as
the http_error variant carrying the status code and reason with
accessible = false; in particular a 404 probe yields status_code 404 and
accessible false, and a summary over that single probe has success rate 0. -/
theorem test_url_http_error_variant (code : Nat) (reason : String) :
    test_url (FetchOutcome.httpError code reason) =
      ⟨ProbeStatus.http_error, some code, none, some reason, false⟩ ∧
    (test_url (FetchOutcome.httpError 404 "Not Found")).status_code = some 404 ∧
    (test_url (FetchOutcome.httpError 404 "Not Found")).accessible = false ∧
    (generate_summary_report
      [⟨"live website", 1, 1,
        [("u", test_url (FetchOutcome.httpError 404 "Not Found"))]⟩]).success_rate = 0 :=
  ⟨rfl, rfl, rfl, by
    norm_num [generate_summary_report, totalTested, totalWorking, countWorking, test_url]⟩

/-- C6: the probe embedding is total over fetch outcomes — every outcome is
classified into exactly one tagged result whose accessible flag is true iff
the tag is success — and a batch over a nonempty link list always yields a
record containing one result per probed link (a failing probe is recorded,
never aborts the batch). -/
theorem test_url_total_classification (o : FetchOutcome)
    (fetch : String → FetchOutcome) (source : String) (links : List String)
    (h : links ≠ []) :
    ((test_url o).accessible = true ↔ (test_url o).status = ProbeStatus.success) ∧
    test_external_links fetch source links =
      some ⟨source, (List.take 10 links).length, links.length,
            (links.take 10).map (fun l => (l, test_url (fetch l)))⟩ := by
  constructor
  · cases o <;> simp [test_url]
  · unfold test_external_links
    rw [if_neg (by simpa using h)]
    simp

/-- Witness for the C6 theorem: a transport-failure probe on a one-element
batch. -/
theorem test_url_total_classification_inst :
    ((test_url (FetchOutcome.urlError "timeout")).accessible = true ↔
      (test_url (FetchOutcome.urlError "timeout")).status = ProbeStatus.success) ∧
    test_external_links (fun _ => FetchOutcome.urlError "timeout") "local file" ["u1"] =
      some ⟨"local file", (List.take 10 ["u1"]).length, List.length ["u1"],
            (List.take 10 ["u1"]).map
              (fun l => (l, test_url ((fun _ => FetchOutcome.urlError "timeout") l)))⟩ :=
  test_url_total_classification (FetchOutcome.urlError "timeout") _ _ _ (by decide)

/-- C7: the reported missing functions are exactly the set difference of
called functions and defined functions; on the crafted example the called
set is exactly the singleton foo, foo is among the defined functions, and
the missing set is empty. -/
theorem missing_functions_set_difference (html : String) :
    (∀ f, f ∈ (analyze_javascript_functionality html).missing_functions ↔
      f ∈ (analyze_javascript_functionality html).function_names ∧
      f ∉ (analyze_javascript_functionality html).defined_functions) ∧
    (analyze_javascript_functionality ex7).function_names = {"foo"} ∧
    "foo" ∈ (analyze_javascript_functionality ex7).defined_functions ∧
    (analyze_javascript_functionality ex7).missing_functions = ∅ := by
  refine ⟨?_, by decide, by decide, by decide⟩
  intro f
  exact Finset.mem_sdiff

/-- Witness for the C7 theorem: the membership characterisation applied to
foo on the crafted example. -/
theorem missing_functions_set_difference_inst :
    "foo" ∈ (analyze_javascript_functionality ex7).missing_functions ↔
    "foo" ∈ (analyze_javascript_functionality ex7).function_names ∧
    "foo" ∉ (analyze_javascript_functionality ex7).defined_functions :=
  (missing_functions_set_difference ex7).1 "foo"

/-- C8: the readable summary assigns excellent for rate at least 90, good
for rates in [75,90), poor for rates in [50,75), and very poor below 50,
for every rational rate. -/
theorem readable_summary_quality_bands (rate : ℚ) :
    (90 ≤ rate → create_readable_summary_band rate = LinkQuality.excellent) ∧
    (75 ≤ rate ∧ rate < 90 → create_readable_summary_band rate = LinkQuality.good) ∧
    (50 ≤ rate ∧ rate < 75 → create_readable_summary_band rate = LinkQuality.poor) ∧
    (rate < 50 → create_readable_summary_band rate = LinkQuality.veryPoor) := by
  unfold create_readable_summary_band
  refine ⟨fun h => ?_, fun h => ?_, fun h => ?_, fun h => ?_⟩
  · rw [if_pos h]
  · rw [if_neg (not_le.mpr h.2), if_pos h.1]
  · rw [if_neg (not_le.mpr (lt_of_lt_of_le h.2 (by norm_num))),
        if_neg (not_le.mpr h.2), if_pos h.1]
  · rw [if_neg (not_le.mpr (lt_of_lt_of_le h (by norm_num))),
        if_neg (not_le.mpr (lt_of_lt_of_le h (by norm_num))),
        if_neg (not_le.mpr h)]

/-- Witness for the C8 theorem: one concrete rate inside each band. -/
theorem readable_summary_quality_bands_inst :
    create_readable_summary_band 95 = LinkQuality.excellent ∧
    create_readable_summary_band 80 = LinkQuality.good ∧
    create_readable_summary_band 60 = LinkQuality.poor ∧
    create_readable_summary_band 10 = LinkQuality.veryPoor :=
  ⟨(readable_summary_quality_bands 95).1 (by norm_num),
   (readable_summary_quality_bands 80).2.1 (by norm_num),
   (readable_summary_quality_bands 60).2.2.1 (by norm_num),
   (readable_summary_quality_bands 10).2.2.2 (by norm_num)⟩

/-- C9: extraction is a pure function of the character content of its input
— two runs on identical text give identical ExtractionResults, and the
result depends on nothing besides the characters (the embedding of the
extractor reads no state other than its argument, mirroring the Python
routine, which touches only locals and the re module). -/
theorem extraction_deterministic (html : String) :
    extract_links_from_html (String.mk html.data) = extract_links_from_html html ∧
    extract_links_from_html html = extract_links_from_html html :=
  ⟨rfl, rfl⟩

/-- C10: a handler string that does not begin with an identifier, optional
whitespace and an opening parenthesis yields no called-function name, and
every name in the missing set traces back to some handler that does begin
with that call shape — so shapeless handlers never contribute to it. -/
theorem onclick_no_call_shape_no_name (s : String) (hs : ¬ BeginsWithCall s) :
    leadingCallName s = none ∧
    ∀ (html name : String), name ∈ missingFunctions html →
      ∃ h, h ∈ scanOnclickHandlers html ∧ leadingCallName h = some name ∧
        BeginsWithCall h := by
  constructor
  · cases hres : leadingCallName s with
    | none => rfl
    | some nm => exact absurd (leadingCallName_shape s nm hres) hs
  · intro html name hmem
    have h1 : name ∈ calledFunctions html := (Finset.mem_sdiff.mp hmem).1
    obtain ⟨hd, hhd, hres⟩ := List.mem_filterMap.mp (List.mem_toFinset.mp h1)
    exact ⟨hd, hhd, hres, leadingCallName_shape hd name hres⟩

/-- Witness for the C10 theorem at the shapeless handler value x = 1. -/
theorem onclick_no_call_shape_no_name_inst :
    leadingCallName "x = 1" = none :=
  (onclick_no_call_shape_no_name "x = 1" (by
    intro hsh
    obtain ⟨c, idRest, ws, rest, heq, _, _, _⟩ := hsh
    have hp : '(' ∈ "x = 1".data := by
      rw [heq]; simp
    exact absurd hp (by decide))).1
